import Mathlib

/-!
Verification of the microphone wave visualizer widget
(`src/components/MicrophoneWaveVisualizer.tsx`).

The component keeps React state (`isRecording`, `audioLevel`, `pitch`,
`isPermissionGranted`) and five refs (`audioContextRef`, `analyserRef`,
`streamRef`, `animationRef`, `dataArrayRef`).  We embed it shallowly:

* the per-frame computation of `analyzeAudio` becomes pure functions
  (`levelOf`, `startIndexOf`, `endIndexOf`, `pitchScan`, `pitchOf`) over a
  magnitude buffer modelled as `List ℕ` (byte values) and a sample rate
  modelled as `ℚ`;
* JavaScript number division is modelled by `ℚ` division, except where the
  denominator can be `0`: there JavaScript produces `NaN` (from `0/0`), which
  we model by an `Option ℚ` result (`none` = non-finite value);
* the component state becomes a record `VizState`; `startRecording`,
  `stopRecording` and `analyzeAudio` become state-transition functions, with
  the device-acquisition outcome and the spectrum data read each frame
  supplied as parameters;
* reachable states are the inductive closure of the event handlers from the
  initial render state (`Reachable`).
-/

namespace MicViz

/-- Byte-quantized magnitude buffer, one entry per frequency bin
(`dataArrayRef.current`, a `Uint8Array`). -/
abbrev Buffer := List ℕ

/-- Source: `const average = dataArrayRef.current.reduce((sum, value) => sum
+ value, 0) / dataArrayRef.current.length; setAudioLevel(average / 255);`.
The published level for a buffer `B` is `(B.sum / B.length) / 255`. -/
def levelOf (B : Buffer) : ℚ :=
  ((B.sum : ℚ) / (B.length : ℚ)) / 255

/-- Source: `const startIndex = Math.floor(80 * dataArrayRef.current.length /
(audioContextRef.current.sampleRate / 2));`. -/
def startIndexOf (len : ℕ) (sampleRate : ℚ) : ℤ :=
  Int.floor ((80 * (len : ℚ)) / (sampleRate / 2))

/-- Source: `const endIndex = Math.floor(1000 * dataArrayRef.current.length /
(audioContextRef.current.sampleRate / 2));`. -/
def endIndexOf (len : ℕ) (sampleRate : ℚ) : ℤ :=
  Int.floor ((1000 * (len : ℚ)) / (sampleRate / 2))

/-- One iteration of the scan loop body, on accumulator
`(maxIndex, maxValue)`: `if (dataArrayRef.current[i] > maxValue)
{ maxValue = dataArrayRef.current[i]; maxIndex = i; }`.  The strict `>` keeps
the first (lowest-index) maximum on ties. -/
def scanStep (B : Buffer) (acc : ℕ × ℕ) (i : ℕ) : ℕ × ℕ :=
  if B.getD i 0 > acc.2 then (i, B.getD i 0) else acc

/-- The indices visited by the scan loop
`for (let i = startIndex; i < endIndex && i < dataArrayRef.current.length;
i++)`: `i` runs from `s` for as long as `i < e` and `i < B.length`. -/
def scanIndices (B : Buffer) (s e : ℕ) : List ℕ :=
  List.range' s (min e B.length - s)

/-- The scan loop: starts from `maxIndex = 0`, `maxValue = 0` and folds
`scanStep` over the visited indices; returns `(maxIndex, maxValue)`. -/
def pitchScan (B : Buffer) (s e : ℕ) : ℕ × ℕ :=
  (scanIndices B s e).foldl (scanStep B) (0, 0)

/-- Source: `const pitchValue = maxIndex / (endIndex - startIndex);` with the
voice-band bounds computed by `startIndexOf`/`endIndexOf`.  When
`endIndex = startIndex` the loop body never runs, so `maxIndex = 0` and
JavaScript evaluates `0 / 0` to `NaN`; we model the non-finite result as
`none`.  (For a positive sample rate the two floors are nonnegative and
ordered, so `Int.toNat` and this case split are faithful.) -/
def pitchOf (B : Buffer) (sampleRate : ℚ) : Option ℚ :=
  let s : ℕ := (startIndexOf B.length sampleRate).toNat
  let e : ℕ := (endIndexOf B.length sampleRate).toNat
  let maxIndex : ℕ := (pitchScan B s e).1
  if e = s then none else some ((maxIndex : ℚ) / ((e : ℚ) - (s : ℚ)))

/-- Source, `NeonOrbStyle`: `const pulseSize = 1 + (volume + pitch) * 0.3;`. -/
def pulseSize (volume pitch : ℚ) : ℚ :=
  1 + (volume + pitch) * 0.3

/-- Source, `NeonOrbStyle`: `const glowIntensity = (volume + pitch) * 30;`. -/
def glowIntensity (volume pitch : ℚ) : ℚ :=
  (volume + pitch) * 30

/-- The component state: the four React state hooks plus the five refs.
`audioContext` records the sample rate of the live `AudioContext` when one is
present; `analyser`, `stream` and `animation` record whether the
corresponding ref is non-null; `dataArray` holds the buffer contents when the
`Uint8Array` is allocated.  `pitch` is `none` when the stored number is
non-finite (`NaN`).  `errorSurfaced` records that the failure `alert` was
shown. -/
structure VizState where
  isRecording : Bool
  audioLevel : ℚ
  pitch : Option ℚ
  isPermissionGranted : Bool
  audioContext : Option ℚ
  analyser : Bool
  stream : Bool
  animation : Bool
  dataArray : Option Buffer
  errorSurfaced : Bool

/-- The state at first render: `useState(false)`, `useState(0)`,
`useState(0)`, `useState(false)`, and all refs initialized to `null`. -/
def initState : VizState where
  isRecording := false
  audioLevel := 0
  pitch := some 0
  isPermissionGranted := false
  audioContext := none
  analyser := false
  stream := false
  animation := false
  dataArray := none
  errorSurfaced := false

/-- Source: `analyzeAudio`.  Guard: `if (!analyserRef.current ||
!dataArrayRef.current) return;`.  Then `getByteFrequencyData` overwrites the
buffer with the spectrum read this frame (`input`) and the level is
published; `if (!audioContextRef.current) return;` returns early (after the
level was already published); otherwise the voice-band scan publishes the
pitch and `requestAnimationFrame` schedules the next frame. -/
def analyzeAudio (s : VizState) (input : Buffer) : VizState :=
  if s.analyser = false ∨ s.dataArray = none then s
  else
    let s1 : VizState := { s with dataArray := some input, audioLevel := levelOf input }
    match s.audioContext with
    | none => s1
    | some sr => { s1 with pitch := pitchOf input sr, animation := true }

/-- The state written by the success path of `startRecording` before its call
to `analyzeAudio`: stream stored, permission flag set, audio context (with
its sample rate) and analyser created, a fresh zeroed `Uint8Array` of length
`frequencyBinCount = 1024` allocated (`fftSize = 2048`), and
`setIsRecording(true)`. -/
def startSuccessState (s : VizState) (sampleRate : ℚ) : VizState :=
  { s with
      stream := true
      isPermissionGranted := true
      audioContext := some sampleRate
      analyser := true
      dataArray := some (List.replicate 1024 0)
      isRecording := true }

/-- Outcome of `navigator.mediaDevices.getUserMedia`: either a stream from a
device whose context will report the given sample rate, or a rejection
(permission denied / device unavailable). -/
inductive StartOutcome where
  | success (sampleRate : ℚ)
  | failure

/-- Source: `startRecording`.  On success the refs and flags are set and
`analyzeAudio` runs once (reading `input` from the analyser); on failure
(`catch`) the alert is surfaced and nothing else is touched. -/
def startRecording (s : VizState) : StartOutcome → Buffer → VizState
  | StartOutcome.success sr, input => analyzeAudio (startSuccessState s sr) input
  | StartOutcome.failure, _ => { s with errorSurfaced := true }

/-- Source: `stopRecording`: stops the stream tracks and drops the stream,
closes and drops the audio context, cancels and drops the frame callback,
then `setIsRecording(false)`, `setAudioLevel(0)`, `setPitch(0)`.  (The
source's null-guards only skip the external release calls; the resulting
state is the same.)  Note `analyserRef` and `dataArrayRef` are not
touched. -/
def stopRecording (s : VizState) : VizState :=
  { s with
      stream := false
      audioContext := none
      animation := false
      isRecording := false
      audioLevel := 0
      pitch := some 0 }

/-- States reachable from the first render by the component's events: a
start attempt (the start button and `handleToggle` only fire it while not
recording; on success the first frame reads a spectrum of the buffer's
length 1024), a stop (button, toggle, or the unmount cleanup effect), and an
`analyzeAudio` frame fired by a pending `requestAnimationFrame` callback
(which overwrites the allocated buffer in place, so the read has its
length). -/
inductive Reachable : VizState → Prop
  | init : Reachable initState
  | start_ok : ∀ (s : VizState) (sr : ℚ) (input : Buffer), Reachable s →
      s.isRecording = false → input.length = 1024 →
      Reachable (startRecording s (StartOutcome.success sr) input)
  | start_fail : ∀ (s : VizState) (input : Buffer), Reachable s →
      s.isRecording = false →
      Reachable (startRecording s StartOutcome.failure input)
  | stop : ∀ (s : VizState), Reachable s → Reachable (stopRecording s)
  | frame : ∀ (s : VizState) (input : Buffer), Reachable s →
      s.animation = true → (∀ b ∈ s.dataArray, input.length = b.length) →
      Reachable (analyzeAudio s input)

/-- The inductive invariant of the component: the stream, the scheduled
frame callback and the audio context are live exactly while recording; while
recording, the analyser and the buffer exist and permission has been
granted. -/
def Inv (s : VizState) : Prop :=
  s.stream = s.isRecording ∧
  s.animation = s.isRecording ∧
  s.audioContext.isSome = s.isRecording ∧
  (s.isRecording = true → s.analyser = true ∧ s.dataArray.isSome = true) ∧
  (s.isRecording = true → s.isPermissionGranted = true)

/-- Concrete 1024-bin spectrum whose only nonzero bin is bin 45 (value 200);
with `sampleRate = 44100` the voice band is `[3, 46)`, so bin 45 is the
argmax. -/
def cexBuf : Buffer := List.replicate 45 0 ++ 200 :: List.replicate 978 0

/-- An all-zero 1024-bin spectrum used for concrete traces. -/
def demoBuf : Buffer := List.replicate 1024 0

/-- The state after a successful start from the initial state
(sample rate 44100, first frame reads silence). -/
def demoStart : VizState := startRecording initState (StartOutcome.success 44100) demoBuf

/-- The state after a successful start followed by a stop. -/
def demoStopped : VizState := stopRecording demoStart

theorem analyzeAudio_run (s : VizState) (sr : ℚ) (input buf : Buffer)
    (h1 : s.analyser = true) (h2 : s.dataArray = some buf)
    (h3 : s.audioContext = some sr) :
    analyzeAudio s input =
      { s with dataArray := some input, audioLevel := levelOf input,
               pitch := pitchOf input sr, animation := true } := by
  simp [analyzeAudio, h1, h2, h3]

theorem reachable_inv : ∀ s : VizState, Reachable s → Inv s := by
  intro s hs
  induction hs with
  | init => simp [Inv, initState]
  | start_ok s sr input hr hrec hlen ih =>
      rw [show startRecording s (StartOutcome.success sr) input =
            analyzeAudio (startSuccessState s sr) input from rfl]
      rw [analyzeAudio_run _ sr _ (List.replicate 1024 0) rfl rfl rfl]
      exact ⟨rfl, rfl, rfl, fun _ => ⟨rfl, rfl⟩, fun _ => rfl⟩
  | start_fail s input hr hrec ih =>
      obtain ⟨i1, i2, i3, i4, i5⟩ := ih
      exact ⟨i1, i2, i3, i4, i5⟩
  | stop s hr ih => simp [Inv, stopRecording]
  | frame s input hr hanim hlen ih =>
      obtain ⟨i1, i2, i3, i4, i5⟩ := ih
      have hrec : s.isRecording = true := by rw [← i2, hanim]
      obtain ⟨h4a, h4b⟩ := i4 hrec
      obtain ⟨buf, hbuf⟩ := Option.isSome_iff_exists.mp h4b
      have h3s : s.audioContext.isSome = true := by rw [i3, hrec]
      obtain ⟨sr, hsr⟩ := Option.isSome_iff_exists.mp h3s
      rw [analyzeAudio_run s sr input buf h4a hbuf hsr]
      exact ⟨i1, hrec.symm, i3, fun _ => ⟨h4a, rfl⟩, fun _ => i5 hrec⟩

theorem demoStart_eq :
    demoStart =
      { startSuccessState initState 44100 with
          dataArray := some demoBuf, audioLevel := levelOf demoBuf,
          pitch := pitchOf demoBuf 44100, animation := true } :=
  analyzeAudio_run (startSuccessState initState 44100) 44100 demoBuf
    (List.replicate 1024 0) rfl rfl rfl

set_option maxRecDepth 40000 in
/-- Claim C1 (code bug): with `sampleRate = 44100` and the 1024-bin buffer
`cexBuf` (only bin 45 nonzero), the voice band is `[3, 46)` and the argmax
is bin 45, but the code publishes `pitch = maxIndex / (endIndex - startIndex)
= 45/43 > 1`: it never subtracts `startIndex` from `maxIndex`, so the
published value is not `(argmax - startIndex)/(endIndex - startIndex)` and
escapes the `[0,1]` range that the claim (and the code's own
`Convert to pitch value (0-1)` comment) promise. -/
theorem pitch_missing_start_offset :
    startIndexOf cexBuf.length 44100 = 3 ∧
    endIndexOf cexBuf.length 44100 = 46 ∧
    (pitchScan cexBuf 3 46).1 = 45 ∧
    pitchOf cexBuf 44100 = some (45 / 43) ∧
    ¬ ((45 : ℚ) / 43 ≤ 1) ∧
    pitchOf cexBuf 44100 ≠ some (((45 : ℚ) - 3) / ((46 : ℚ) - 3)) := by
  have hlen : cexBuf.length = 1024 := by decide
  have hscan : pitchScan cexBuf 3 46 = (45, 200) := by decide
  have hs : startIndexOf 1024 44100 = 3 := by
    unfold startIndexOf; norm_num [Int.floor_eq_iff]
  have he : endIndexOf 1024 44100 = 46 := by
    unfold endIndexOf; norm_num [Int.floor_eq_iff]
  have hp : pitchOf cexBuf 44100 = some (45 / 43) := by
    simp only [pitchOf, hlen, hs, he]
    rw [show (3 : ℤ).toNat = 3 from rfl, show (46 : ℤ).toNat = 46 from rfl, hscan]
    norm_num
  refine ⟨by rw [hlen]; exact hs, by rw [hlen]; exact he, by rw [hscan], hp, by norm_num, ?_⟩
  rw [hp]
  intro hcontra
  rw [Option.some_inj] at hcontra
  norm_num at hcontra

/-- Claim C2 (code bug): with `sampleRate = 4194304` the voice band indices
are `startIndex = endIndex = 0` (empty range), the scan loop never runs, and
the code evaluates `pitchValue = 0 / 0`, which is `NaN` in JavaScript (here
`none`) — not the `0` the claim requires. -/
theorem pitch_nan_on_empty_voice_band :
    startIndexOf demoBuf.length 4194304 = 0 ∧
    endIndexOf demoBuf.length 4194304 = 0 ∧
    pitchOf demoBuf 4194304 = none ∧
    pitchOf demoBuf 4194304 ≠ some 0 := by
  have hlen : demoBuf.length = 1024 := by simp only [demoBuf, List.length_replicate]
  have hs : startIndexOf 1024 4194304 = 0 := by
    unfold startIndexOf; norm_num [Int.floor_eq_iff]
  have he : endIndexOf 1024 4194304 = 0 := by
    unfold endIndexOf; norm_num [Int.floor_eq_iff]
  have hp : pitchOf demoBuf 4194304 = none := by
    simp only [pitchOf, hlen, hs, he]
    simp
  exact ⟨by rw [hlen]; exact hs, by rw [hlen]; exact he, hp, by rw [hp]; exact nofun⟩

/-- Claim C3: when device acquisition fails, `startRecording` only surfaces
the user-visible error (`alert`): from any state with no session (fresh
controller), capturing and permission remain `false` and no stream, audio
context, analyser or buffer is created — nothing is partially
initialized. -/
theorem start_failure_no_partial_state (s : VizState) (input : Buffer)
    (hrec : s.isRecording = false) (hperm : s.isPermissionGranted = false)
    (hstream : s.stream = false) (hctx : s.audioContext = none)
    (han : s.analyser = false) (hbuf : s.dataArray = none) :
    (startRecording s StartOutcome.failure input).errorSurfaced = true ∧
    startRecording s StartOutcome.failure input = { s with errorSurfaced := true } ∧
    (startRecording s StartOutcome.failure input).isRecording = false ∧
    (startRecording s StartOutcome.failure input).isPermissionGranted = false ∧
    (startRecording s StartOutcome.failure input).stream = false ∧
    (startRecording s StartOutcome.failure input).audioContext = none ∧
    (startRecording s StartOutcome.failure input).analyser = false ∧
    (startRecording s StartOutcome.failure input).dataArray = none :=
  ⟨rfl, rfl, hrec, hperm, hstream, hctx, han, hbuf⟩

/-- Witness for claim C3 at the initial render state. -/
theorem start_failure_no_partial_state_witness :
    (startRecording initState StartOutcome.failure []).errorSurfaced = true ∧
    startRecording initState StartOutcome.failure [] = { initState with errorSurfaced := true } ∧
    (startRecording initState StartOutcome.failure []).isRecording = false ∧
    (startRecording initState StartOutcome.failure []).isPermissionGranted = false ∧
    (startRecording initState StartOutcome.failure []).stream = false ∧
    (startRecording initState StartOutcome.failure []).audioContext = none ∧
    (startRecording initState StartOutcome.failure []).analyser = false ∧
    (startRecording initState StartOutcome.failure []).dataArray = none :=
  start_failure_no_partial_state initState [] rfl rfl rfl rfl rfl rfl

/-- Claim C4 counterexample: the invariant "buffer and analysis context are
non-null iff a capture session is active" is false: after a successful start
followed by stop — a reachable state — capturing is `false` while the
analyser and the sample buffer are still referenced (`stopRecording` never
clears `analyserRef` or `dataArrayRef`). -/
theorem session_resources_iff_capturing_fails :
    ¬ ∀ s : VizState, Reachable s →
        ((s.analyser = true ∧ s.dataArray.isSome = true) ↔ s.isRecording = true) := by
  intro h
  have hreach : Reachable demoStopped :=
    Reachable.stop _
      (Reachable.start_ok initState 44100 demoBuf Reachable.init rfl (by simp only [demoBuf, List.length_replicate]))
  have han : demoStopped.analyser = true := by
    rw [show demoStopped.analyser = demoStart.analyser from rfl, demoStart_eq]
    rfl
  have hbuf : demoStopped.dataArray.isSome = true := by
    rw [show demoStopped.dataArray = demoStart.dataArray from rfl, demoStart_eq]
    rfl
  have hfalse := (h demoStopped hreach).mp ⟨han, hbuf⟩
  rw [show demoStopped.isRecording = false from rfl] at hfalse
  exact Bool.noConfusion hfalse

/-- Claim C4 (amended): in every reachable state the stream, the audio
context and the scheduled frame callback are live iff a capture session is
active; `stopRecording` zeroes level and pitch and drops the stream, the
audio context and the frame callback.  (The analyser and the sample buffer,
once allocated, are not cleared by stop, so the claim's iff is restricted to
the resources stop actually releases.) -/
theorem reachable_resources_amended (s : VizState) (hs : Reachable s) :
    (s.isRecording = true ↔
      (s.stream = true ∧ s.audioContext.isSome = true ∧ s.animation = true)) ∧
    (stopRecording s).audioLevel = 0 ∧ (stopRecording s).pitch = some 0 ∧
    (stopRecording s).isRecording = false ∧ (stopRecording s).stream = false ∧
    (stopRecording s).audioContext = none ∧ (stopRecording s).animation = false := by
  obtain ⟨i1, i2, i3, i4, i5⟩ := reachable_inv s hs
  refine ⟨⟨fun h => ⟨by rw [i1, h], by rw [i3, h], by rw [i2, h]⟩,
           fun h => by rw [← i1]; exact h.1⟩, rfl, rfl, rfl, rfl, rfl, rfl⟩

/-- Witness for the amended claim C4 at the initial render state. -/
theorem reachable_resources_amended_witness :
    (initState.isRecording = true ↔
      (initState.stream = true ∧ initState.audioContext.isSome = true ∧
        initState.animation = true)) ∧
    (stopRecording initState).audioLevel = 0 ∧
    (stopRecording initState).pitch = some 0 ∧
    (stopRecording initState).isRecording = false ∧
    (stopRecording initState).stream = false ∧
    (stopRecording initState).audioContext = none ∧
    (stopRecording initState).animation = false :=
  reachable_resources_amended initState Reachable.init

/-- Claim C5 counterexample: after `stop(); stop()` following a successful
start, the analyser and the sample buffer are still referenced, so the
terminal state does not drop every resource reference named by the claim. -/
theorem double_stop_retains_analyser_and_buffer :
    (stopRecording (stopRecording demoStart)).analyser = true ∧
    (stopRecording (stopRecording demoStart)).dataArray = some demoBuf := by
  constructor
  · rw [show (stopRecording (stopRecording demoStart)).analyser = demoStart.analyser from rfl,
        demoStart_eq]
    rfl
  · rw [show (stopRecording (stopRecording demoStart)).dataArray = demoStart.dataArray from rfl,
        demoStart_eq]

/-- Claim C5 (amended): `stopRecording` is idempotent — a second stop yields
exactly the state of the first — and the terminal state has level 0,
pitch 0, capturing `false`, with the stream, the audio context and the frame
callback dropped; the analyser and buffer references are left exactly as
they were (they are not released by stop). -/
theorem stop_idempotent_amended (s : VizState) :
    stopRecording (stopRecording s) = stopRecording s ∧
    (stopRecording s).audioLevel = 0 ∧ (stopRecording s).pitch = some 0 ∧
    (stopRecording s).isRecording = false ∧ (stopRecording s).stream = false ∧
    (stopRecording s).audioContext = none ∧ (stopRecording s).animation = false ∧
    (stopRecording s).analyser = s.analyser ∧
    (stopRecording s).dataArray = s.dataArray :=
  ⟨rfl, rfl, rfl, rfl, rfl, rfl, rfl, rfl, rfl⟩

/-- Claim C6: in every state reachable by start/stop/frame events from the
initial state, capturing implies permission granted — the combination
`capturing = true, permissionGranted = false` never occurs. -/
theorem recording_implies_permission (s : VizState) (hs : Reachable s)
    (hrec : s.isRecording = true) : s.isPermissionGranted = true :=
  (reachable_inv s hs).2.2.2.2 hrec

/-- Witness for claim C6 at the reachable state after a successful start. -/
theorem recording_implies_permission_witness :
    demoStart.isPermissionGranted = true :=
  recording_implies_permission demoStart
    (Reachable.start_ok initState 44100 demoBuf Reachable.init rfl (by simp only [demoBuf, List.length_replicate]))
    (by rw [demoStart_eq]; rfl)

/-- Claim C7: for every nonempty buffer with byte values, the published
level is the arithmetic mean of the bin magnitudes divided by 255, and lies
in `[0, 1]`. -/
theorem level_mean_normalized (B : Buffer) (hN : 0 < B.length)
    (hval : ∀ x ∈ B, x ≤ 255) :
    levelOf B = ((B.sum : ℚ) / (B.length : ℚ)) / 255 ∧
    0 ≤ levelOf B ∧ levelOf B ≤ 1 := by
  refine ⟨rfl, ?_, ?_⟩
  · unfold levelOf
    positivity
  · unfold levelOf
    have h1 : B.sum ≤ B.length * 255 := by
      simpa [smul_eq_mul] using List.sum_le_card_nsmul B 255 hval
    have h2 : (B.sum : ℚ) ≤ (B.length : ℚ) * 255 := by exact_mod_cast h1
    have hlpos : (0 : ℚ) < (B.length : ℚ) := by exact_mod_cast hN
    rw [div_le_one (by norm_num : (0 : ℚ) < 255), div_le_iff₀ hlpos]
    linarith

/-- Witness for claim C7 on the concrete buffer `[255, 0, 51]`. -/
theorem level_mean_normalized_witness :
    levelOf [255, 0, 51] =
      ((([255, 0, 51] : Buffer).sum : ℚ) / (([255, 0, 51] : Buffer).length : ℚ)) / 255 ∧
    0 ≤ levelOf [255, 0, 51] ∧ levelOf [255, 0, 51] ≤ 1 :=
  level_mean_normalized [255, 0, 51] (by decide) (by decide)

/-- Claim C8: if the analyser or the sample buffer is absent (session not
yet initialized or already torn down), `analyzeAudio` returns at its guard
before reading or publishing anything: the frame is a complete, silent
no-op — the state is unchanged. -/
theorem analyze_skips_frame_without_session (s : VizState) (input : Buffer)
    (h : s.analyser = false ∨ s.dataArray = none) :
    analyzeAudio s input = s := by
  unfold analyzeAudio
  rw [if_pos h]

/-- Witness for claim C8 at the initial render state (no session yet). -/
theorem analyze_skips_frame_without_session_witness :
    analyzeAudio initState [0] = initState :=
  analyze_skips_frame_without_session initState [0] (Or.inl rfl)

/-- Claim C9: the presentation layer computes the orb's pulse scale as
`1 + (level + pitch) * 0.3` and its glow intensity as
`(level + pitch) * 30`, for every level and pitch value. -/
theorem orb_pulse_and_glow_formulas (volume pitch : ℚ) :
    pulseSize volume pitch = 1 + (volume + pitch) * 0.3 ∧
    glowIntensity volume pitch = (volume + pitch) * 30 :=
  ⟨rfl, rfl⟩

/-- Claim C10: the pitch scan only visits in-bounds indices: the loop bound
`i < endIndex && i < dataArray.length` keeps every visited index below the
buffer length, even when `endIndex` exceeds it. -/
theorem scan_reads_within_buffer (B : Buffer) (s e i : ℕ)
    (hi : i ∈ scanIndices B s e) : i < B.length := by
  unfold scanIndices at hi
  rw [List.mem_range'] at hi
  obtain ⟨j, hj, rfl⟩ := hi
  have hmin : min e B.length ≤ B.length := Nat.min_le_right _ _
  omega

/-- Witness for claim C10: a 4-bin buffer scanned with `endIndex = 10`
beyond its length; the visited index 2 is in bounds. -/
theorem scan_reads_within_buffer_witness :
    (2 : ℕ) < (List.replicate 4 (0 : ℕ) : Buffer).length :=
  scan_reads_within_buffer (List.replicate 4 0) 1 10 2 (by decide)

end MicViz
